import Mathlib

/-!
Verification of the dinosaur ecological-impact scorer.

Shallow embedding of `predict_dinosaur_impact` from `nuclear.py` over the
real numbers.  Python float arithmetic (including fractional `**` powers)
is modelled by exact real arithmetic with `Real.rpow`; the Python calls
`round(x, 1)` and `round(x, 0)` are modelled by rounding to the nearest
multiple of `1/10` (resp. nearest integer) via the Mathlib `round`
(half-up at exact ties, where Python uses half-to-even; no statement
below depends on the direction of an exact tie).
-/

/-- Result dictionary returned by `predict_dinosaur_impact`. -/
structure ImpactResult where
  score : ℝ
  category : String
  emoji : String
  color : String
  estimated_mass : ℝ

/-- Size multiplier applied inside the sauropod branch:
`if length_m > 25: base_mass *= 1.3 elif length_m > 20: base_mass *= 1.1`. -/
noncomputable def sauropod_size_multiplier (length_m : ℝ) : ℝ :=
  if length_m > 25 then 1.3 else if length_m > 20 then 1.1 else 1

/-- STEP 1 of the source, before the square-cube compression and the 50 kg
floor: the body-type dispatch on allometric formulas, with
`estimated_femur_circ = length_m * 0.08`. -/
noncomputable def base_mass (length_m height_m : ℝ) (dino_type : String) : ℝ :=
  if dino_type = "sauropod" then
    2.4 * (length_m * 0.08) ^ (2.6 : ℝ) * height_m ^ (0.4 : ℝ) * 1000 *
      sauropod_size_multiplier length_m
  else if dino_type = "large theropod" then
    3.2 * (length_m * 0.08) ^ (2.7 : ℝ) * height_m ^ (0.6 : ℝ) * 1000
  else if dino_type = "small theropod" then
    1.8 * (length_m * 0.08) ^ (2.5 : ℝ) * height_m ^ (0.5 : ℝ) * 1000
  else if dino_type = "ceratopsian" then
    2.8 * (length_m * 0.08) ^ (2.6 : ℝ) * height_m ^ (0.55 : ℝ) * 1000
  else if dino_type = "armoured dinosaur" then
    3.0 * (length_m * 0.08) ^ (2.65 : ℝ) * height_m ^ (0.5 : ℝ) * 1000
  else if dino_type = "euornithopod" then
    2.2 * (length_m * 0.08) ^ (2.55 : ℝ) * height_m ^ (0.5 : ℝ) * 1000
  else
    2.5 * (length_m * 0.08) ^ (2.6 : ℝ) * height_m ^ (0.5 : ℝ) * 1000

/-- Square-cube law compression of STEP 1. -/
noncomputable def compress_mass (m : ℝ) : ℝ :=
  if m > 50000 then 50000 + (m - 50000) * 0.3
  else if m > 30000 then 30000 + (m - 30000) * 0.6
  else m

/-- Minimum-mass floor of STEP 1: `if base_mass < 50: base_mass = 50`. -/
noncomputable def floor_mass (m : ℝ) : ℝ :=
  if m < 50 then 50 else m

/-- Value of `estimated_mass_kg` at the end of STEP 1. -/
noncomputable def estimated_mass_kg (length_m height_m : ℝ) (dino_type : String) : ℝ :=
  floor_mass (compress_mass (base_mass length_m height_m dino_type))

/-- Lookup `diet_metabolic_factors.get(diet, 1.5)` from STEP 2. -/
noncomputable def diet_metabolic_factor (diet : String) : ℝ :=
  if diet = "carnivorous" then 2.8
  else if diet = "herbivorous" then 1.0
  else if diet = "omnivorous" then 1.8
  else if diet = "unknown" then 1.5
  else 1.5

/-- Value `metabolic_demand` from STEP 2 (`basal_metabolic_rate = mass ** 0.75`). -/
noncomputable def metabolic_demand (mass : ℝ) (diet : String) : ℝ :=
  mass ^ (0.75 : ℝ) * diet_metabolic_factor diet

/-- Value `home_range_factor` from STEP 3. -/
noncomputable def home_range_factor (mass : ℝ) (diet : String) : ℝ :=
  if diet = "carnivorous" then mass ^ (0.75 : ℝ) * 0.02
  else if diet = "herbivorous" then mass ^ (0.65 : ℝ) * 0.008
  else mass ^ (0.7 : ℝ) * 0.015

/-- Value `competition_intensity` from STEP 3. -/
noncomputable def competition_intensity (diet : String) : ℝ :=
  if diet = "carnivorous" then 3.5
  else if diet = "herbivorous" then 1.8
  else 2.5

/-- Value `carrying_capacity` from STEP 4, bucketed by mass. -/
noncomputable def carrying_capacity (mass : ℝ) : ℝ :=
  if mass > 20000 then 2000 / mass ^ (0.6 : ℝ)
  else if mass > 10000 then 3000 / mass ^ (0.6 : ℝ)
  else if mass > 5000 then 4000 / mass ^ (0.6 : ℝ)
  else if mass > 1000 then 5000 / mass ^ (0.6 : ℝ)
  else 6000 / mass ^ (0.6 : ℝ)

/-- Value `niche_breadth` from STEP 5. -/
noncomputable def niche_breadth (dino_type : String) : ℝ :=
  if dino_type = "sauropod" then 2.8
  else if dino_type = "large theropod" then 3.5
  else if dino_type = "ceratopsian" then 2.2
  else if dino_type = "armoured dinosaur" then 1.8
  else if dino_type = "euornithopod" then 2.4
  else 2.0

/-- Value `ecological_context = period_factors.get(geological_period, 1.0)` from STEP 6. -/
noncomputable def ecological_context (geological_period : String) : ℝ :=
  if geological_period = "Late Triassic" then 1.2
  else if geological_period = "Early Jurassic" then 1.1
  else if geological_period = "Mid Jurassic" then 1.0
  else if geological_period = "Late Jurassic" then 0.9
  else if geological_period = "Early Cretaceous" then 0.95
  else if geological_period = "Late Cretaceous" then 0.85
  else 1.0

/-- Value `resource_index` from STEP 7 (0-30 points). -/
noncomputable def resource_index (mass : ℝ) (diet geological_period : String) : ℝ :=
  min 30 (metabolic_demand mass diet / 10000 * ecological_context geological_period)

/-- Value `habitat_index` from STEP 7 (0-25 points). -/
noncomputable def habitat_index (mass : ℝ) (diet dino_type : String) : ℝ :=
  min 25 (home_range_factor mass diet / 1000 * niche_breadth dino_type)

/-- Value `competition_index` from STEP 7 (0-25 points). -/
noncomputable def competition_index (mass : ℝ) (diet : String) : ℝ :=
  min 25 (competition_intensity diet * (1 / carrying_capacity mass) * 1000)

/-- Value `stability_index` from STEP 7 (0-20 points). -/
noncomputable def stability_index (dino_type geological_period : String) : ℝ :=
  min 20 (niche_breadth dino_type * 5 + ecological_context geological_period * 10)

/-- Sum `raw_impact` of the four sub-indices, over the mass computed in STEP 1. -/
noncomputable def raw_impact (length_m height_m : ℝ) (diet dino_type geological_period : String) : ℝ :=
  resource_index (estimated_mass_kg length_m height_m dino_type) diet geological_period +
  habitat_index (estimated_mass_kg length_m height_m dino_type) diet dino_type +
  competition_index (estimated_mass_kg length_m height_m dino_type) diet +
  stability_index dino_type geological_period

/-- Final `impact_score = min(100, max(5, raw_impact * 1.2))`. -/
noncomputable def impact_score (length_m height_m : ℝ) (diet dino_type geological_period : String) : ℝ :=
  min 100 (max 5 (raw_impact length_m height_m diet dino_type geological_period * 1.2))

/-- The CATEGORIZATION block: label, symbol and color from the unrounded score. -/
noncomputable def categorize (s : ℝ) : String × String × String :=
  if s < 20 then ("Minimal Impact", "üü¢", "#00ff88")
  else if s < 40 then ("Low Impact", "üü°", "#ffaa00")
  else if s < 65 then ("Moderate Impact", "üü†", "#ff6600")
  else if s < 85 then ("High Impact", "üî¥", "#ff4400")
  else ("Extreme Impact", "üíÄ", "#ff0000")

/-- Python `round(x, 1)` (returned score is rounded to one decimal). -/
noncomputable def round1 (x : ℝ) : ℝ := (round (x * 10) : ℤ) / 10

/-- Python `round(x, 0)` (returned mass is rounded to the nearest kilogram). -/
noncomputable def round0 (x : ℝ) : ℝ := (round x : ℤ)

/-- The full scorer `predict_dinosaur_impact`.  The two time arguments are
part of the source signature; the body never reads them. -/
noncomputable def predict_dinosaur_impact (length_m height_m : ℝ)
    (diet dino_type geological_period : String)
    (start_time_mya end_time_mya : ℝ) : ImpactResult :=
  { score := round1 (impact_score length_m height_m diet dino_type geological_period)
    category := (categorize (impact_score length_m height_m diet dino_type geological_period)).1
    emoji := (categorize (impact_score length_m height_m diet dino_type geological_period)).2.1
    color := (categorize (impact_score length_m height_m diet dino_type geological_period)).2.2
    estimated_mass := round0 (estimated_mass_kg length_m height_m dino_type) }

/-- Bucketing of a score value at the thresholds 20 / 40 / 65 / 85, written
out from the words of the specification (claim side, for comparison with the
`category` field the code produces). -/
noncomputable def category_of_score (s : ℝ) : String :=
  if s < 20 then "Minimal Impact"
  else if s < 40 then "Low Impact"
  else if s < 65 then "Moderate Impact"
  else if s < 85 then "High Impact"
  else "Extreme Impact"

/-- Mass estimation written out from the words of the specification: a per-type
base formula with no length condition, then the sauropod-only length
multipliers, then the two compression maps and the 50 kg floor (claim side,
for comparison with `estimated_mass_kg`). -/
noncomputable def mass_spec (length_m height_m : ℝ) (dino_type : String) : ℝ :=
  let base :=
    if dino_type = "sauropod" then
      2.4 * (length_m * 0.08) ^ (2.6 : ℝ) * height_m ^ (0.4 : ℝ) * 1000
    else if dino_type = "large theropod" then
      3.2 * (length_m * 0.08) ^ (2.7 : ℝ) * height_m ^ (0.6 : ℝ) * 1000
    else if dino_type = "small theropod" then
      1.8 * (length_m * 0.08) ^ (2.5 : ℝ) * height_m ^ (0.5 : ℝ) * 1000
    else if dino_type = "ceratopsian" then
      2.8 * (length_m * 0.08) ^ (2.6 : ℝ) * height_m ^ (0.55 : ℝ) * 1000
    else if dino_type = "armoured dinosaur" then
      3.0 * (length_m * 0.08) ^ (2.65 : ℝ) * height_m ^ (0.5 : ℝ) * 1000
    else if dino_type = "euornithopod" then
      2.2 * (length_m * 0.08) ^ (2.55 : ℝ) * height_m ^ (0.5 : ℝ) * 1000
    else
      2.5 * (length_m * 0.08) ^ (2.6 : ℝ) * height_m ^ (0.5 : ℝ) * 1000
  let corrected :=
    if dino_type = "sauropod" then
      if length_m > 25 then base * 1.3
      else if length_m > 20 then base * 1.1
      else base
    else base
  let compressed :=
    if corrected > 50000 then 50000 + (corrected - 50000) * 0.3
    else if corrected > 30000 then 30000 + (corrected - 30000) * 0.6
    else corrected
  if compressed < 50 then 50 else compressed

/-- A length whose impact score (herbivorous armoured dinosaur, Late
Cretaceous, height 4) lands just below the 40-point threshold: the base
mass it induces is exactly `(6957/5000) ^ 20` kilograms. -/
noncomputable def boundary_length : ℝ :=
  12.5 * (((6957 : ℝ) / 5000) ^ (20 : ℕ) / 6000) ^ ((20 : ℝ) / 53)

/-- C8: the result of `predict_dinosaur_impact` does not depend on the
`start_time_mya` and `end_time_mya` arguments: any two invocations agreeing
on the other five arguments agree on every field of the result. -/
theorem predict_independent_of_times (length_m height_m : ℝ)
    (diet dino_type geological_period : String) (s1 e1 s2 e2 : ℝ) :
    predict_dinosaur_impact length_m height_m diet dino_type geological_period s1 e1 =
    predict_dinosaur_impact length_m height_m diet dino_type geological_period s2 e2 := rfl

/-- C9: `predict_dinosaur_impact` is deterministic: two invocations whose
seven arguments are pairwise equal return results equal in every field. -/
theorem predict_deterministic (l h l' h' : ℝ) (d t p d' t' p' : String) (s e s' e' : ℝ)
    (hl : l = l') (hh : h = h') (hd : d = d') (ht : t = t') (hp : p = p')
    (hs : s = s') (he : e = e') :
    predict_dinosaur_impact l h d t p s e = predict_dinosaur_impact l' h' d' t' p' s' e' := by
  subst hl hh hd ht hp hs he; rfl

/-- Witness for C9 at a concrete input. -/
theorem predict_deterministic_witness :
    predict_dinosaur_impact 12 4 "carnivorous" "large theropod" "Late Cretaceous" 68 66 =
    predict_dinosaur_impact 12 4 "carnivorous" "large theropod" "Late Cretaceous" 68 66 :=
  predict_deterministic 12 4 12 4 "carnivorous" "large theropod" "Late Cretaceous"
    "carnivorous" "large theropod" "Late Cretaceous" 68 66 68 66
    rfl rfl rfl rfl rfl rfl rfl

/-- The 50 kg floor makes every estimated mass at least 50. -/
theorem floor_mass_ge (m : ℝ) : 50 ≤ floor_mass m := by
  unfold floor_mass
  split_ifs with hm
  · norm_num
  · linarith

/-- Helper: the mass produced by STEP 1 is at least 50 kg. -/
theorem estimated_mass_kg_ge (l h : ℝ) (t : String) : 50 ≤ estimated_mass_kg l h t :=
  floor_mass_ge _

/-- Helper: the mass produced by STEP 1 is positive. -/
theorem estimated_mass_kg_pos (l h : ℝ) (t : String) : 0 < estimated_mass_kg l h t :=
  lt_of_lt_of_le (by norm_num) (estimated_mass_kg_ge l h t)

/-- Helper: rounding is monotone. -/
theorem round_mono_real {x y : ℝ} (hxy : x ≤ y) : round x ≤ round y := by
  rw [round_eq, round_eq]
  exact Int.floor_mono (by linarith)

/-- Helper: rounding to one decimal preserves integer lower bounds. -/
theorem le_round1 {x : ℝ} (n : ℤ) (hx : (n : ℝ) ≤ x) : (n : ℝ) ≤ round1 x := by
  unfold round1
  have h1 : round ((n * 10 : ℤ) : ℝ) ≤ round (x * 10) := by
    apply round_mono_real
    push_cast
    linarith
  rw [round_intCast] at h1
  have h2 : ((n * 10 : ℤ) : ℝ) ≤ ((round (x * 10) : ℤ) : ℝ) := by exact_mod_cast h1
  push_cast at h2 ⊢
  linarith

/-- Helper: rounding to one decimal preserves integer upper bounds. -/
theorem round1_le {x : ℝ} (n : ℤ) (hx : x ≤ (n : ℝ)) : round1 x ≤ (n : ℝ) := by
  unfold round1
  have h1 : round (x * 10) ≤ round ((n * 10 : ℤ) : ℝ) := by
    apply round_mono_real
    push_cast
    linarith
  rw [round_intCast] at h1
  have h2 : ((round (x * 10) : ℤ) : ℝ) ≤ ((n * 10 : ℤ) : ℝ) := by exact_mod_cast h1
  push_cast at h2 ⊢
  linarith

/-- Helper: rounding to the nearest integer preserves integer lower bounds. -/
theorem le_round0 {x : ℝ} (n : ℤ) (hx : (n : ℝ) ≤ x) : (n : ℝ) ≤ round0 x := by
  unfold round0
  have h1 : round ((n : ℤ) : ℝ) ≤ round x := round_mono_real (by exact_mod_cast hx)
  rw [round_intCast] at h1
  exact_mod_cast h1

/-- Helper: the impact score is clamped into the interval from 5 to 100. -/
theorem impact_score_mem (l h : ℝ) (d t p : String) :
    5 ≤ impact_score l h d t p ∧ impact_score l h d t p ≤ 100 := by
  unfold impact_score
  constructor
  · exact le_min (by norm_num) (le_max_left 5 _)
  · exact min_le_left _ _

/-- C1: for every input with positive length and height (and arbitrary
diet, body-type, period strings and times), the score field of the
result lies in the interval from 5 to 100 and the estimated_mass field
is at least 50 kg. -/
theorem score_in_range_and_mass_floor (l h : ℝ) (hl : 0 < l) (hh : 0 < h)
    (d t p : String) (st et : ℝ) :
    5 ≤ (predict_dinosaur_impact l h d t p st et).score ∧
    (predict_dinosaur_impact l h d t p st et).score ≤ 100 ∧
    50 ≤ (predict_dinosaur_impact l h d t p st et).estimated_mass := by
  obtain ⟨h5, h100⟩ := impact_score_mem l h d t p
  refine ⟨?_, ?_, ?_⟩
  · have := le_round1 (x := impact_score l h d t p) 5 (by exact_mod_cast h5)
    simpa [predict_dinosaur_impact] using this
  · have := round1_le (x := impact_score l h d t p) 100 (by exact_mod_cast h100)
    simpa [predict_dinosaur_impact] using this
  · have := le_round0 (x := estimated_mass_kg l h t) 50
      (by exact_mod_cast estimated_mass_kg_ge l h t)
    simpa [predict_dinosaur_impact] using this

/-- Witness for C1 at a concrete input. -/
theorem score_in_range_and_mass_floor_witness :
    5 ≤ (predict_dinosaur_impact 12 4 "carnivorous" "large theropod" "Late Cretaceous" 68 66).score ∧
    (predict_dinosaur_impact 12 4 "carnivorous" "large theropod" "Late Cretaceous" 68 66).score ≤ 100 ∧
    50 ≤ (predict_dinosaur_impact 12 4 "carnivorous" "large theropod" "Late Cretaceous" 68 66).estimated_mass :=
  score_in_range_and_mass_floor 12 4 (by norm_num) (by norm_num)
    "carnivorous" "large theropod" "Late Cretaceous" 68 66

/-- Helper: every body type has niche breadth at least 1.8. -/
theorem niche_breadth_ge (t : String) : 1.8 ≤ niche_breadth t := by
  unfold niche_breadth
  split_ifs <;> norm_num

/-- Helper: every period factor is at least 0.85. -/
theorem ecological_context_ge (p : String) : 0.85 ≤ ecological_context p := by
  unfold ecological_context
  split_ifs <;> norm_num

/-- Helper: every diet has a positive metabolic factor. -/
theorem diet_metabolic_factor_pos (d : String) : 0 < diet_metabolic_factor d := by
  unfold diet_metabolic_factor
  split_ifs <;> norm_num

/-- Helper: every diet has positive competition intensity. -/
theorem competition_intensity_pos (d : String) : 0 < competition_intensity d := by
  unfold competition_intensity
  split_ifs <;> norm_num

/-- Helper: the stability sub-index is at least 17.5 for every type and period. -/
theorem stability_index_ge (t p : String) : 17.5 ≤ stability_index t p := by
  unfold stability_index
  refine le_min (by norm_num) ?_
  have h1 := niche_breadth_ge t
  have h2 := ecological_context_ge p
  nlinarith

/-- Helper: the resource sub-index is nonnegative for positive masses. -/
theorem resource_index_nonneg (m : ℝ) (hm : 0 < m) (d p : String) :
    0 ≤ resource_index m d p := by
  unfold resource_index metabolic_demand
  refine le_min (by norm_num) ?_
  have h1 : (0:ℝ) ≤ m ^ (0.75 : ℝ) := Real.rpow_nonneg hm.le _
  have h2 := diet_metabolic_factor_pos d
  have h3 := ecological_context_ge p
  positivity

/-- Helper: the habitat sub-index is nonnegative for positive masses. -/
theorem habitat_index_nonneg (m : ℝ) (hm : 0 < m) (d t : String) :
    0 ≤ habitat_index m d t := by
  unfold habitat_index
  refine le_min (by norm_num) ?_
  have hn : (0:ℝ) ≤ niche_breadth t := le_trans (by norm_num) (niche_breadth_ge t)
  have hh : 0 ≤ home_range_factor m d := by
    unfold home_range_factor
    have h1 : (0:ℝ) ≤ m ^ (0.75 : ℝ) := Real.rpow_nonneg hm.le _
    have h2 : (0:ℝ) ≤ m ^ (0.65 : ℝ) := Real.rpow_nonneg hm.le _
    have h3 : (0:ℝ) ≤ m ^ (0.7 : ℝ) := Real.rpow_nonneg hm.le _
    split_ifs <;> nlinarith
  positivity

/-- Helper: the carrying capacity is positive for positive masses. -/
theorem carrying_capacity_pos (m : ℝ) (hm : 0 < m) : 0 < carrying_capacity m := by
  unfold carrying_capacity
  have h1 : (0:ℝ) < m ^ (0.6 : ℝ) := Real.rpow_pos_of_pos hm _
  split_ifs <;> positivity

/-- Helper: the competition sub-index is nonnegative for positive masses. -/
theorem competition_index_nonneg (m : ℝ) (hm : 0 < m) (d : String) :
    0 ≤ competition_index m d := by
  unfold competition_index
  refine le_min (by norm_num) ?_
  have h1 := competition_intensity_pos d
  have h2 := carrying_capacity_pos m hm
  positivity

/-- Helper: the raw impact sum is at least 17.5 for every input. -/
theorem raw_impact_ge (l h : ℝ) (d t p : String) : 17.5 ≤ raw_impact l h d t p := by
  unfold raw_impact
  have hm := estimated_mass_kg_pos l h t
  have h1 := resource_index_nonneg (estimated_mass_kg l h t) hm d p
  have h2 := habitat_index_nonneg (estimated_mass_kg l h t) hm d t
  have h3 := competition_index_nonneg (estimated_mass_kg l h t) hm d
  have h4 := stability_index_ge t p
  linarith

/-- Helper: the impact score is at least 21 for every input. -/
theorem impact_score_ge_21 (l h : ℝ) (d t p : String) : 21 ≤ impact_score l h d t p := by
  unfold impact_score
  have h1 := raw_impact_ge l h d t p
  exact le_min (by norm_num) (le_max_of_le_right (by linarith))

/-- C10: the stability sub-index is always at least 17.5, the other three
sub-indices are nonnegative, the impact score is at least 21, the lower
clamp at 5 is never active, and the category "Minimal Impact" is never
returned. -/
theorem minimal_impact_unreachable (l h : ℝ) (hl : 0 < l) (hh : 0 < h)
    (d t p : String) (st et : ℝ) :
    17.5 ≤ stability_index t p ∧
    0 ≤ resource_index (estimated_mass_kg l h t) d p ∧
    0 ≤ habitat_index (estimated_mass_kg l h t) d t ∧
    0 ≤ competition_index (estimated_mass_kg l h t) d ∧
    21 ≤ impact_score l h d t p ∧
    max 5 (raw_impact l h d t p * 1.2) = raw_impact l h d t p * 1.2 ∧
    (predict_dinosaur_impact l h d t p st et).category ≠ "Minimal Impact" := by
  have hm := estimated_mass_kg_pos l h t
  have hraw := raw_impact_ge l h d t p
  have hsc := impact_score_ge_21 l h d t p
  refine ⟨stability_index_ge t p, resource_index_nonneg _ hm d p,
    habitat_index_nonneg _ hm d t, competition_index_nonneg _ hm d, hsc,
    max_eq_right (by linarith), ?_⟩
  show (categorize (impact_score l h d t p)).1 ≠ "Minimal Impact"
  unfold categorize
  rw [if_neg (not_lt.mpr (by linarith : (20:ℝ) ≤ impact_score l h d t p))]
  split_ifs <;> decide

/-- Witness for C10 at a concrete input. -/
theorem minimal_impact_unreachable_witness :
    17.5 ≤ stability_index "large theropod" "Late Cretaceous" ∧
    0 ≤ resource_index (estimated_mass_kg 12 4 "large theropod") "carnivorous" "Late Cretaceous" ∧
    0 ≤ habitat_index (estimated_mass_kg 12 4 "large theropod") "carnivorous" "large theropod" ∧
    0 ≤ competition_index (estimated_mass_kg 12 4 "large theropod") "carnivorous" ∧
    21 ≤ impact_score 12 4 "carnivorous" "large theropod" "Late Cretaceous" ∧
    max 5 (raw_impact 12 4 "carnivorous" "large theropod" "Late Cretaceous" * 1.2) =
      raw_impact 12 4 "carnivorous" "large theropod" "Late Cretaceous" * 1.2 ∧
    (predict_dinosaur_impact 12 4 "carnivorous" "large theropod" "Late Cretaceous" 68 66).category ≠
      "Minimal Impact" :=
  minimal_impact_unreachable 12 4 (by norm_num) (by norm_num)
    "carnivorous" "large theropod" "Late Cretaceous" 68 66

/-- C7: the scorer is total over arbitrary strings and falls back to
documented defaults: a diet outside the three known diets gets metabolic
factor 1.5, a body type outside the six known types gets the default mass
formula and niche breadth 2.0, and a period outside the six named periods
gets temporal multiplier 1.0. -/
theorem unknown_categories_use_defaults (l h : ℝ) (d t p : String)
    (hd1 : d ≠ "carnivorous") (hd2 : d ≠ "herbivorous") (hd3 : d ≠ "omnivorous")
    (ht1 : t ≠ "sauropod") (ht2 : t ≠ "large theropod") (ht3 : t ≠ "small theropod")
    (ht4 : t ≠ "ceratopsian") (ht5 : t ≠ "armoured dinosaur") (ht6 : t ≠ "euornithopod")
    (hp1 : p ≠ "Late Triassic") (hp2 : p ≠ "Early Jurassic") (hp3 : p ≠ "Mid Jurassic")
    (hp4 : p ≠ "Late Jurassic") (hp5 : p ≠ "Early Cretaceous") (hp6 : p ≠ "Late Cretaceous") :
    diet_metabolic_factor d = 1.5 ∧
    base_mass l h t = 2.5 * (l * 0.08) ^ (2.6 : ℝ) * h ^ (0.5 : ℝ) * 1000 ∧
    niche_breadth t = 2.0 ∧
    ecological_context p = 1.0 := by
  refine ⟨?_, ?_, ?_, ?_⟩
  · unfold diet_metabolic_factor
    rw [if_neg hd1, if_neg hd2, if_neg hd3]
    split_ifs <;> norm_num
  · unfold base_mass
    rw [if_neg ht1, if_neg ht2, if_neg ht3, if_neg ht4, if_neg ht5, if_neg ht6]
  · unfold niche_breadth
    rw [if_neg ht1, if_neg ht2, if_neg ht4, if_neg ht5, if_neg ht6]
  · unfold ecological_context
    rw [if_neg hp1, if_neg hp2, if_neg hp3, if_neg hp4, if_neg hp5, if_neg hp6]

/-- Witness for C7 at concrete unknown strings. -/
theorem unknown_categories_use_defaults_witness :
    diet_metabolic_factor "insectivorous" = 1.5 ∧
    base_mass 12 4 "pterosaur" = 2.5 * ((12 : ℝ) * 0.08) ^ (2.6 : ℝ) * (4 : ℝ) ^ (0.5 : ℝ) * 1000 ∧
    niche_breadth "pterosaur" = 2.0 ∧
    ecological_context "Holocene" = 1.0 :=
  unknown_categories_use_defaults 12 4 "insectivorous" "pterosaur" "Holocene"
    (by decide) (by decide) (by decide) (by decide) (by decide) (by decide)
    (by decide) (by decide) (by decide) (by decide) (by decide) (by decide)
    (by decide) (by decide) (by decide)

/-- C6: the mass estimation agrees, for every input, with the
words of the specification: per-type base formula, the 1.3 / 1.1 length
multipliers tiered at 25 and 20 applied only in the sauropod branch,
then the two compression maps above 50000 and 30000 kg, then the 50 kg
floor. -/
theorem mass_estimation_matches_spec (l h : ℝ) (t : String) :
    estimated_mass_kg l h t = mass_spec l h t := by
  by_cases h1 : t = "sauropod"
  · simp only [estimated_mass_kg, mass_spec, base_mass, compress_mass, floor_mass,
      sauropod_size_multiplier, if_pos h1]
    generalize (2.4 * (l * 0.08) ^ (2.6 : ℝ) * h ^ (0.4 : ℝ) * 1000 : ℝ) = X
    split_ifs <;> (first | rfl | linarith)
  · simp only [estimated_mass_kg, mass_spec, base_mass, compress_mass, floor_mass,
      if_neg h1]

/-- Helper: collapse a real power of a natural power. -/
theorem pow_rpow_eval {s : ℝ} (hs : 0 ≤ s) (a c : ℕ) (b : ℝ) (h : (a : ℝ) * b = (c : ℝ)) :
    ((s ^ a : ℝ)) ^ b = s ^ c := by
  rw [← Real.rpow_natCast s a, ← Real.rpow_mul hs, h, Real.rpow_natCast]

/-- Helper: a rational-exponent power as a q-th root of a natural power. -/
theorem rpow_div_eq {x : ℝ} (hx : 0 ≤ x) (p q : ℕ) :
    x ^ ((p : ℝ) / q) = ((x ^ p : ℝ)) ^ ((1 : ℝ) / q) := by
  rw [← Real.rpow_natCast x p, ← Real.rpow_mul hx, mul_one_div]

/-- Helper: lower bound on a rational-exponent power via q-th powers. -/
theorem le_rpow_div {x a : ℝ} (p q : ℕ) (hx : 0 ≤ x) (ha : 0 ≤ a) (hq : 0 < q)
    (h : a ^ q ≤ x ^ p) : a ≤ x ^ ((p : ℝ) / q) := by
  have hq0 : ((q : ℝ)) ≠ 0 := by positivity
  have h1 : ((a ^ q : ℝ)) ^ ((1 : ℝ) / q) ≤ ((x ^ p : ℝ)) ^ ((1 : ℝ) / q) :=
    Real.rpow_le_rpow (by positivity) h (by positivity)
  have h2 : ((a ^ q : ℝ)) ^ ((1 : ℝ) / q) = a := by
    rw [pow_rpow_eval ha q 1 ((1 : ℝ) / q) (by field_simp), pow_one]
  rw [rpow_div_eq hx p q]
  rw [h2] at h1
  exact h1

/-- Helper: upper bound on a rational-exponent power via q-th powers. -/
theorem rpow_div_le {x b : ℝ} (p q : ℕ) (hx : 0 ≤ x) (hb : 0 ≤ b) (hq : 0 < q)
    (h : x ^ p ≤ b ^ q) : x ^ ((p : ℝ) / q) ≤ b := by
  have hq0 : ((q : ℝ)) ≠ 0 := by positivity
  have h1 : ((x ^ p : ℝ)) ^ ((1 : ℝ) / q) ≤ ((b ^ q : ℝ)) ^ ((1 : ℝ) / q) :=
    Real.rpow_le_rpow (by positivity) h (by positivity)
  have h2 : ((b ^ q : ℝ)) ^ ((1 : ℝ) / q) = b := by
    rw [pow_rpow_eval hb q 1 ((1 : ℝ) / q) (by field_simp), pow_one]
  rw [rpow_div_eq hx p q]
  rw [h2] at h1
  exact h1

/-- Helper: rounding to the nearest integer preserves integer upper bounds. -/
theorem round0_le {x : ℝ} (n : ℤ) (hx : x ≤ (n : ℝ)) : round0 x ≤ (n : ℝ) := by
  unfold round0
  have h1 : round x ≤ round ((n : ℤ) : ℝ) := round_mono_real (by exact_mod_cast hx)
  rw [round_intCast] at h1
  exact_mod_cast h1

/-- Helper: tight bounds on the mass the code computes for the T-Rex-like
example input length 12, height 4, large theropod. -/
theorem trex_mass_bounds :
    6582 ≤ estimated_mass_kg 12 4 "large theropod" ∧
    estimated_mass_kg 12 4 "large theropod" ≤ 6587 := by
  have hbase : base_mass 12 4 "large theropod" =
      3.2 * ((12 : ℝ) * 0.08) ^ (2.7 : ℝ) * (4 : ℝ) ^ (0.6 : ℝ) * 1000 := by
    unfold base_mass
    rw [if_neg (by decide), if_pos rfl]
  have e1 : (2.7 : ℝ) = ((27 : ℕ) : ℝ) / ((10 : ℕ) : ℝ) := by norm_num
  have e2 : (0.6 : ℝ) = ((3 : ℕ) : ℝ) / ((5 : ℕ) : ℝ) := by norm_num
  have hA_lo : (0.8955 : ℝ) ≤ ((12 : ℝ) * 0.08) ^ (2.7 : ℝ) := by
    rw [e1]
    exact le_rpow_div 27 10 (by norm_num) (by norm_num) (by norm_num) (by norm_num)
  have hA_hi : ((12 : ℝ) * 0.08) ^ (2.7 : ℝ) ≤ 0.8958 := by
    rw [e1]
    exact rpow_div_le 27 10 (by norm_num) (by norm_num) (by norm_num) (by norm_num)
  have hB_lo : (2.297 : ℝ) ≤ ((4 : ℝ)) ^ (0.6 : ℝ) := by
    rw [e2]
    exact le_rpow_div 3 5 (by norm_num) (by norm_num) (by norm_num) (by norm_num)
  have hB_hi : ((4 : ℝ)) ^ (0.6 : ℝ) ≤ 2.2975 := by
    rw [e2]
    exact rpow_div_le 3 5 (by norm_num) (by norm_num) (by norm_num) (by norm_num)
  have hA_pos : (0 : ℝ) ≤ ((12 : ℝ) * 0.08) ^ (2.7 : ℝ) := by positivity
  have hB_pos : (0 : ℝ) ≤ ((4 : ℝ)) ^ (0.6 : ℝ) := by positivity
  have hAB_lo : (0.8955 : ℝ) * 2.297 ≤
      ((12 : ℝ) * 0.08) ^ (2.7 : ℝ) * ((4 : ℝ)) ^ (0.6 : ℝ) :=
    mul_le_mul hA_lo hB_lo (by norm_num) hA_pos
  have hAB_hi : ((12 : ℝ) * 0.08) ^ (2.7 : ℝ) * ((4 : ℝ)) ^ (0.6 : ℝ) ≤
      (0.8958 : ℝ) * 2.2975 :=
    mul_le_mul hA_hi hB_hi hB_pos (by norm_num)
  have hb_lo : (6582 : ℝ) ≤ base_mass 12 4 "large theropod" := by
    rw [hbase]; nlinarith
  have hb_hi : base_mass 12 4 "large theropod" ≤ 6587 := by
    rw [hbase]; nlinarith
  unfold estimated_mass_kg compress_mass floor_mass
  rw [if_neg (show ¬ base_mass 12 4 "large theropod" > 50000 by linarith),
    if_neg (show ¬ base_mass 12 4 "large theropod" > 30000 by linarith),
    if_neg (show ¬ base_mass 12 4 "large theropod" < 50 by linarith)]
  exact ⟨hb_lo, hb_hi⟩

/-- C4 evaluation: on length 12, height 4, carnivorous large theropod in
the Late Cretaceous, the code computes an estimated mass between 6582 and
6587 kg, strictly below the documented 7000 to 9000 kg design target. -/
theorem trex_example_mass_below_target :
    6500 ≤ (predict_dinosaur_impact 12 4 "carnivorous" "large theropod" "Late Cretaceous" 68 66).estimated_mass ∧
    (predict_dinosaur_impact 12 4 "carnivorous" "large theropod" "Late Cretaceous" 68 66).estimated_mass < 7000 := by
  obtain ⟨hlo, hhi⟩ := trex_mass_bounds
  constructor
  · have h1 : ((6582 : ℤ) : ℝ) ≤ round0 (estimated_mass_kg 12 4 "large theropod") :=
      le_round0 6582 (by exact_mod_cast hlo)
    show (6500 : ℝ) ≤ round0 (estimated_mass_kg 12 4 "large theropod")
    push_cast at h1
    linarith
  · have h1 : round0 (estimated_mass_kg 12 4 "large theropod") ≤ ((6587 : ℤ) : ℝ) :=
      round0_le 6587 (by exact_mod_cast hhi)
    show round0 (estimated_mass_kg 12 4 "large theropod") < 7000
    push_cast at h1
    linarith

/-- Helper: tight bounds on the mass the code computes for the
Brontosaurus-like example input length 21, height 12, sauropod. -/
theorem sauropod_mass_bounds :
    27442 ≤ estimated_mass_kg 21 12 "sauropod" ∧
    estimated_mass_kg 21 12 "sauropod" ≤ 27566 := by
  have hmult : sauropod_size_multiplier 21 = 1.1 := by
    unfold sauropod_size_multiplier
    rw [if_neg (show ¬ (21 : ℝ) > 25 by norm_num), if_pos (show (21 : ℝ) > 20 by norm_num)]
  have hbase : base_mass 21 12 "sauropod" =
      2.4 * ((21 : ℝ) * 0.08) ^ (2.6 : ℝ) * (12 : ℝ) ^ (0.4 : ℝ) * 1000 * 1.1 := by
    unfold base_mass
    rw [if_pos rfl, hmult]
  have e1 : (2.6 : ℝ) = ((13 : ℕ) : ℝ) / ((5 : ℕ) : ℝ) := by norm_num
  have e2 : (0.4 : ℝ) = ((2 : ℕ) : ℝ) / ((5 : ℕ) : ℝ) := by norm_num
  have hA_lo : (3.85 : ℝ) ≤ ((21 : ℝ) * 0.08) ^ (2.6 : ℝ) := by
    rw [e1]
    exact le_rpow_div 13 5 (by norm_num) (by norm_num) (by norm_num) (by norm_num)
  have hA_hi : ((21 : ℝ) * 0.08) ^ (2.6 : ℝ) ≤ 3.86 := by
    rw [e1]
    exact rpow_div_le 13 5 (by norm_num) (by norm_num) (by norm_num) (by norm_num)
  have hB_lo : (2.70 : ℝ) ≤ ((12 : ℝ)) ^ (0.4 : ℝ) := by
    rw [e2]
    exact le_rpow_div 2 5 (by norm_num) (by norm_num) (by norm_num) (by norm_num)
  have hB_hi : ((12 : ℝ)) ^ (0.4 : ℝ) ≤ 2.705 := by
    rw [e2]
    exact rpow_div_le 2 5 (by norm_num) (by norm_num) (by norm_num) (by norm_num)
  have hA_pos : (0 : ℝ) ≤ ((21 : ℝ) * 0.08) ^ (2.6 : ℝ) := by positivity
  have hB_pos : (0 : ℝ) ≤ ((12 : ℝ)) ^ (0.4 : ℝ) := by positivity
  have hAB_lo : (3.85 : ℝ) * 2.70 ≤
      ((21 : ℝ) * 0.08) ^ (2.6 : ℝ) * ((12 : ℝ)) ^ (0.4 : ℝ) :=
    mul_le_mul hA_lo hB_lo (by norm_num) hA_pos
  have hAB_hi : ((21 : ℝ) * 0.08) ^ (2.6 : ℝ) * ((12 : ℝ)) ^ (0.4 : ℝ) ≤
      (3.86 : ℝ) * 2.705 :=
    mul_le_mul hA_hi hB_hi hB_pos (by norm_num)
  have hb_lo : (27442 : ℝ) ≤ base_mass 21 12 "sauropod" := by
    rw [hbase]; nlinarith
  have hb_hi : base_mass 21 12 "sauropod" ≤ 27566 := by
    rw [hbase]; nlinarith
  unfold estimated_mass_kg compress_mass floor_mass
  rw [if_neg (show ¬ base_mass 21 12 "sauropod" > 50000 by linarith),
    if_neg (show ¬ base_mass 21 12 "sauropod" > 30000 by linarith),
    if_neg (show ¬ base_mass 21 12 "sauropod" < 50 by linarith)]
  exact ⟨hb_lo, hb_hi⟩

/-- C5 evaluation: on length 21, height 12, herbivorous sauropod in the
Late Jurassic, the code computes an estimated mass between 27442 and
27566 kg, strictly above the documented 15000 to 20000 kg design target. -/
theorem sauropod_example_mass_above_target :
    20000 < (predict_dinosaur_impact 21 12 "herbivorous" "sauropod" "Late Jurassic" 155 145).estimated_mass ∧
    (predict_dinosaur_impact 21 12 "herbivorous" "sauropod" "Late Jurassic" 155 145).estimated_mass < 28000 := by
  obtain ⟨hlo, hhi⟩ := sauropod_mass_bounds
  constructor
  · have h1 : ((27442 : ℤ) : ℝ) ≤ round0 (estimated_mass_kg 21 12 "sauropod") :=
      le_round0 27442 (by exact_mod_cast hlo)
    show (20000 : ℝ) < round0 (estimated_mass_kg 21 12 "sauropod")
    push_cast at h1
    linarith
  · have h1 : round0 (estimated_mass_kg 21 12 "sauropod") ≤ ((27566 : ℤ) : ℝ) :=
      round0_le 27566 (by exact_mod_cast hhi)
    show round0 (estimated_mass_kg 21 12 "sauropod") < 28000
    push_cast at h1
    linarith

/-- Helper: the pre-compression base mass is strictly increasing in length
for every body type, at fixed positive height. -/
theorem base_mass_strict_mono {l1 l2 h : ℝ} (t : String)
    (h0 : 0 < l1) (h12 : l1 < l2) (hh : 0 < h) :
    base_mass l1 h t < base_mass l2 h t := by
  have hx0 : 0 < l1 * 0.08 := by linarith
  have hx12 : l1 * 0.08 < l2 * 0.08 := by linarith
  have key : ∀ e : ℝ, 0 < e → (l1 * 0.08) ^ e < (l2 * 0.08) ^ e :=
    fun e he => Real.rpow_lt_rpow hx0.le hx12 he
  have hpow : ∀ f : ℝ, 0 < h ^ f := fun f => Real.rpow_pos_of_pos hh f
  unfold base_mass
  split_ifs
  · have hm := mul_lt_mul_of_pos_right (key 2.6 (by norm_num)) (hpow 0.4)
    have hp : 0 < (l1 * 0.08) ^ (2.6 : ℝ) * h ^ (0.4 : ℝ) :=
      mul_pos (Real.rpow_pos_of_pos hx0 _) (hpow _)
    unfold sauropod_size_multiplier
    split_ifs <;> linarith
  · have hm := mul_lt_mul_of_pos_right (key 2.7 (by norm_num)) (hpow 0.6)
    linarith
  · have hm := mul_lt_mul_of_pos_right (key 2.5 (by norm_num)) (hpow 0.5)
    linarith
  · have hm := mul_lt_mul_of_pos_right (key 2.6 (by norm_num)) (hpow 0.55)
    linarith
  · have hm := mul_lt_mul_of_pos_right (key 2.65 (by norm_num)) (hpow 0.5)
    linarith
  · have hm := mul_lt_mul_of_pos_right (key 2.55 (by norm_num)) (hpow 0.5)
    linarith
  · have hm := mul_lt_mul_of_pos_right (key 2.6 (by norm_num)) (hpow 0.5)
    linarith

/-- Helper: exact value of the nearest-integer rounding from sandwiching
bounds. -/
theorem round0_eq_of {x : ℝ} (n : ℤ) (h1 : (n : ℝ) ≤ x + 1 / 2) (h2 : x + 1 / 2 < n + 1) :
    round0 x = (n : ℝ) := by
  unfold round0
  rw [round_eq]
  have : ⌊x + 1 / 2⌋ = n := Int.floor_eq_iff.mpr ⟨h1, by push_cast; linarith⟩
  rw [this]

/-- Helper: the base mass of a small theropod of length 3.125 and height 1
is exactly 56.25 kg. -/
theorem small_theropod_base_eval_1 :
    base_mass 3.125 1 "small theropod" = 56.25 := by
  unfold base_mass
  rw [if_neg (by decide), if_neg (by decide), if_pos rfl, Real.one_rpow,
    show ((3.125 : ℝ) * 0.08) = (0.5 : ℝ) ^ (2 : ℕ) by norm_num,
    pow_rpow_eval (by norm_num : (0 : ℝ) ≤ 0.5) 2 5 2.5 (by norm_num)]
  norm_num

/-- Helper: the base mass of a small theropod of length 1565001/500000 and
height 1 is exactly 1800 times the fifth power of 1251/2500. -/
theorem small_theropod_base_eval_2 :
    base_mass (1565001 / 500000) 1 "small theropod" = 1800 * ((1251 : ℝ) / 2500) ^ (5 : ℕ) := by
  unfold base_mass
  rw [if_neg (by decide), if_neg (by decide), if_pos rfl, Real.one_rpow,
    show ((1565001 : ℝ) / 500000 * 0.08) = ((1251 : ℝ) / 2500) ^ (2 : ℕ) by norm_num,
    pow_rpow_eval (by norm_num : (0 : ℝ) ≤ (1251 : ℝ) / 2500) 2 5 2.5 (by norm_num)]
  ring

/-- C3 counterexample: two lengths 3.125 < 1565001/500000 of a small
theropod at height 1 whose masses (56.25 kg and about 56.475 kg) stay far
below the compression regime, yet the returned estimated_mass field is 56
for both, so it is not strictly increasing in length. -/
theorem mass_not_strictly_increasing_in_length :
    (3.125 : ℝ) < 1565001 / 500000 ∧
    base_mass 3.125 1 "small theropod" < 30000 ∧
    base_mass (1565001 / 500000) 1 "small theropod" < 30000 ∧
    (predict_dinosaur_impact 3.125 1 "carnivorous" "small theropod" "Late Cretaceous" 0 0).estimated_mass =
      (predict_dinosaur_impact (1565001 / 500000) 1 "carnivorous" "small theropod" "Late Cretaceous" 0 0).estimated_mass := by
  have hb1 := small_theropod_base_eval_1
  have hb2 := small_theropod_base_eval_2
  have hv2 : (50 : ℝ) < 1800 * ((1251 : ℝ) / 2500) ^ (5 : ℕ) := by norm_num
  have hv2h : (1800 : ℝ) * ((1251 : ℝ) / 2500) ^ (5 : ℕ) < 30000 := by norm_num
  have hm1 : estimated_mass_kg 3.125 1 "small theropod" = 56.25 := by
    unfold estimated_mass_kg compress_mass floor_mass
    rw [hb1]
    norm_num
  have hm2 : estimated_mass_kg (1565001 / 500000) 1 "small theropod" =
      1800 * ((1251 : ℝ) / 2500) ^ (5 : ℕ) := by
    unfold estimated_mass_kg compress_mass floor_mass
    rw [hb2]
    rw [if_neg (by norm_num), if_neg (by norm_num), if_neg (by norm_num)]
  refine ⟨by norm_num, by rw [hb1]; norm_num, by rw [hb2]; norm_num, ?_⟩
  show round0 (estimated_mass_kg 3.125 1 "small theropod") =
    round0 (estimated_mass_kg (1565001 / 500000) 1 "small theropod")
  rw [hm1, hm2, round0_eq_of 56 (by norm_num) (by norm_num),
    round0_eq_of 56 (by norm_num) (by norm_num)]

/-- C3 amended: at fixed positive height (and any diet, period, times),
the pre-rounding estimated mass is strictly increasing in length whenever
the base mass at the larger length clears the 50 kg floor and stays at or below
the 30000 kg compression threshold; the returned estimated_mass field,
which rounds that value to the nearest kilogram, is weakly increasing
there. -/
theorem mass_increasing_in_length {l1 l2 h : ℝ} (t d p : String) (st et : ℝ)
    (h0 : 0 < l1) (h12 : l1 < l2) (hh : 0 < h)
    (hfloor : 50 < base_mass l2 h t) (hcomp : base_mass l2 h t ≤ 30000) :
    estimated_mass_kg l1 h t < estimated_mass_kg l2 h t ∧
    (predict_dinosaur_impact l1 h d t p st et).estimated_mass ≤
      (predict_dinosaur_impact l2 h d t p st et).estimated_mass := by
  have hb := base_mass_strict_mono t h0 h12 hh
  have h2 : estimated_mass_kg l2 h t = base_mass l2 h t := by
    unfold estimated_mass_kg compress_mass floor_mass
    rw [if_neg (show ¬ base_mass l2 h t > 50000 by linarith),
      if_neg (show ¬ base_mass l2 h t > 30000 by linarith),
      if_neg (show ¬ base_mass l2 h t < 50 by linarith)]
  have h1 : estimated_mass_kg l1 h t < base_mass l2 h t := by
    unfold estimated_mass_kg compress_mass floor_mass
    rw [if_neg (show ¬ base_mass l1 h t > 50000 by linarith),
      if_neg (show ¬ base_mass l1 h t > 30000 by linarith)]
    split_ifs with hf
    · linarith
    · linarith
  have hlt : estimated_mass_kg l1 h t < estimated_mass_kg l2 h t := by
    rw [h2]; exact h1
  refine ⟨hlt, ?_⟩
  show round0 (estimated_mass_kg l1 h t) ≤ round0 (estimated_mass_kg l2 h t)
  unfold round0
  exact_mod_cast round_mono_real hlt.le

/-- Witness for the amended C3 at a concrete input. -/
theorem mass_increasing_in_length_witness :
    estimated_mass_kg 3.125 1 "small theropod" < estimated_mass_kg 12.5 1 "small theropod" ∧
    (predict_dinosaur_impact 3.125 1 "carnivorous" "small theropod" "Late Cretaceous" 0 0).estimated_mass ≤
      (predict_dinosaur_impact 12.5 1 "carnivorous" "small theropod" "Late Cretaceous" 0 0).estimated_mass :=
  mass_increasing_in_length "small theropod" "carnivorous" "Late Cretaceous" 0 0
    (by norm_num) (by norm_num) (by norm_num)
    (by
      unfold base_mass
      rw [if_neg (by decide), if_neg (by decide), if_pos rfl, Real.one_rpow,
        show ((12.5 : ℝ) * 0.08) = 1 by norm_num, Real.one_rpow]
      norm_num)
    (by
      unfold base_mass
      rw [if_neg (by decide), if_neg (by decide), if_pos rfl, Real.one_rpow,
        show ((12.5 : ℝ) * 0.08) = 1 by norm_num, Real.one_rpow]
      norm_num)

/-- Helper: exact value of the one-decimal rounding from sandwiching
bounds. -/
theorem round1_eq_of {x : ℝ} (n : ℤ) (h1 : (n : ℝ) ≤ x * 10 + 1 / 2) (h2 : x * 10 + 1 / 2 < n + 1) :
    round1 x = (n : ℝ) / 10 := by
  unfold round1
  rw [round_eq]
  have : ⌊x * 10 + 1 / 2⌋ = n := Int.floor_eq_iff.mpr ⟨h1, by push_cast; linarith⟩
  rw [this]

/-- Helper: the femur proxy at the boundary length, raised to the
armoured-dinosaur exponent, is exactly the target base mass over 6000. -/
theorem boundary_femur_eval :
    (boundary_length * 0.08) ^ (2.65 : ℝ) = ((6957 : ℝ) / 5000) ^ (20 : ℕ) / 6000 := by
  have hy : (0 : ℝ) ≤ ((6957 : ℝ) / 5000) ^ (20 : ℕ) / 6000 := by positivity
  have hx : boundary_length * 0.08 =
      (((6957 : ℝ) / 5000) ^ (20 : ℕ) / 6000) ^ ((20 : ℝ) / 53) := by
    unfold boundary_length; ring
  rw [hx, ← Real.rpow_mul hy, show (20 : ℝ) / 53 * 2.65 = 1 by norm_num, Real.rpow_one]

/-- Helper: the mass the code computes at the boundary input is exactly
the twentieth power of 6957/5000 (about 739.67 kg). -/
theorem boundary_mass_eval :
    estimated_mass_kg boundary_length 4 "armoured dinosaur" = ((6957 : ℝ) / 5000) ^ (20 : ℕ) := by
  have h4 : ((4 : ℝ)) ^ (0.5 : ℝ) = 2 := by
    rw [show (4 : ℝ) = (2 : ℝ) ^ (2 : ℕ) by norm_num,
      pow_rpow_eval (by norm_num : (0 : ℝ) ≤ 2) 2 1 0.5 (by norm_num), pow_one]
  have hbase : base_mass boundary_length 4 "armoured dinosaur" =
      ((6957 : ℝ) / 5000) ^ (20 : ℕ) := by
    unfold base_mass
    rw [if_neg (by decide), if_neg (by decide), if_neg (by decide), if_neg (by decide),
      if_pos rfl, boundary_femur_eval, h4]
    ring
  unfold estimated_mass_kg compress_mass floor_mass
  rw [hbase, if_neg (by norm_num), if_neg (by norm_num), if_neg (by norm_num)]

/-- Helper: closed form of the impact score at the boundary input. -/
theorem boundary_score_eval :
    impact_score boundary_length 4 "herbivorous" "armoured dinosaur" "Late Cretaceous" =
      (((6957 : ℝ) / 5000) ^ (15 : ℕ) * 1.0 / 10000 * 0.85 +
        ((6957 : ℝ) / 5000) ^ (13 : ℕ) * 0.008 / 1000 * 1.8 +
        1.8 * (((6957 : ℝ) / 5000) ^ (12 : ℕ) / 6000) * 1000 + 17.5) * 1.2 := by
  have h75 : (((6957 : ℝ) / 5000) ^ (20 : ℕ)) ^ (0.75 : ℝ) = ((6957 : ℝ) / 5000) ^ (15 : ℕ) :=
    pow_rpow_eval (by norm_num) 20 15 0.75 (by norm_num)
  have h65 : (((6957 : ℝ) / 5000) ^ (20 : ℕ)) ^ (0.65 : ℝ) = ((6957 : ℝ) / 5000) ^ (13 : ℕ) :=
    pow_rpow_eval (by norm_num) 20 13 0.65 (by norm_num)
  have h60 : (((6957 : ℝ) / 5000) ^ (20 : ℕ)) ^ (0.6 : ℝ) = ((6957 : ℝ) / 5000) ^ (12 : ℕ) :=
    pow_rpow_eval (by norm_num) 20 12 0.6 (by norm_num)
  have hres : resource_index (((6957 : ℝ) / 5000) ^ (20 : ℕ)) "herbivorous" "Late Cretaceous" =
      ((6957 : ℝ) / 5000) ^ (15 : ℕ) * 1.0 / 10000 * 0.85 := by
    unfold resource_index metabolic_demand diet_metabolic_factor ecological_context
    rw [if_neg (by decide), if_pos rfl, if_neg (by decide), if_neg (by decide),
      if_neg (by decide), if_neg (by decide), if_neg (by decide), if_pos rfl, h75]
    exact min_eq_right (by norm_num)
  have hhab : habitat_index (((6957 : ℝ) / 5000) ^ (20 : ℕ)) "herbivorous" "armoured dinosaur" =
      ((6957 : ℝ) / 5000) ^ (13 : ℕ) * 0.008 / 1000 * 1.8 := by
    unfold habitat_index home_range_factor niche_breadth
    rw [if_neg (by decide), if_pos rfl, if_neg (by decide), if_neg (by decide),
      if_neg (by decide), if_pos rfl, h65]
    exact min_eq_right (by norm_num)
  have hcomp : competition_index (((6957 : ℝ) / 5000) ^ (20 : ℕ)) "herbivorous" =
      1.8 * (((6957 : ℝ) / 5000) ^ (12 : ℕ) / 6000) * 1000 := by
    unfold competition_index competition_intensity carrying_capacity
    rw [if_neg (by decide), if_pos rfl, if_neg (by norm_num), if_neg (by norm_num),
      if_neg (by norm_num), if_neg (by norm_num), h60, one_div_div]
    exact min_eq_right (by norm_num)
  have hstab : stability_index "armoured dinosaur" "Late Cretaceous" = 17.5 := by
    unfold stability_index niche_breadth ecological_context
    rw [if_neg (by decide), if_neg (by decide), if_neg (by decide), if_pos rfl,
      if_neg (by decide), if_neg (by decide), if_neg (by decide), if_neg (by decide),
      if_neg (by decide), if_pos rfl,
      show (1.8 : ℝ) * 5 + 0.85 * 10 = 17.5 by norm_num]
    exact min_eq_right (by norm_num)
  unfold impact_score raw_impact
  rw [boundary_mass_eval, hres, hhab, hcomp, hstab,
    max_eq_right (by norm_num), min_eq_right (by norm_num)]

/-- C2 counterexample: at the boundary input the unrounded impact score is
about 39.97, so the code labels the result "Low Impact", but the returned
score field is rounded up to 40.0, which the threshold table maps to
"Moderate Impact": the returned category disagrees with bucketing the
returned score. -/
theorem category_disagrees_with_rounded_score :
    (predict_dinosaur_impact boundary_length 4 "herbivorous" "armoured dinosaur" "Late Cretaceous" 0 0).category = "Low Impact" ∧
    (predict_dinosaur_impact boundary_length 4 "herbivorous" "armoured dinosaur" "Late Cretaceous" 0 0).score = 40 ∧
    category_of_score (predict_dinosaur_impact boundary_length 4 "herbivorous" "armoured dinosaur" "Late Cretaceous" 0 0).score = "Moderate Impact" := by
  have hsc := boundary_score_eval
  have hcat : (predict_dinosaur_impact boundary_length 4 "herbivorous" "armoured dinosaur" "Late Cretaceous" 0 0).category = "Low Impact" := by
    show (categorize (impact_score boundary_length 4 "herbivorous" "armoured dinosaur" "Late Cretaceous")).1 = "Low Impact"
    rw [hsc]
    unfold categorize
    rw [if_neg (by norm_num), if_pos (by norm_num)]
  have hscore : (predict_dinosaur_impact boundary_length 4 "herbivorous" "armoured dinosaur" "Late Cretaceous" 0 0).score = 40 := by
    show round1 (impact_score boundary_length 4 "herbivorous" "armoured dinosaur" "Late Cretaceous") = 40
    rw [hsc, round1_eq_of 400 (by norm_num) (by norm_num)]
    norm_num
  refine ⟨hcat, hscore, ?_⟩
  rw [hscore]
  unfold category_of_score
  rw [if_neg (by norm_num), if_neg (by norm_num), if_pos (by norm_num)]

/-- C2 amended: the returned category is an exact contiguous function with
thresholds 20 / 40 / 65 / 85 of the UNROUNDED impact score (the returned
score field rounds that value to one decimal, and bucketing the rounded
value can disagree when the unrounded score lies within 0.05 below a
threshold). -/
theorem category_matches_unrounded_score (l h : ℝ) (d t p : String) (st et : ℝ) :
    (predict_dinosaur_impact l h d t p st et).category =
      category_of_score (impact_score l h d t p) := by
  show (categorize (impact_score l h d t p)).1 = category_of_score (impact_score l h d t p)
  unfold categorize category_of_score
  split_ifs <;> rfl
